import Mathlib

/-!
Verification of the spicedb CRDB datastore configuration builder
(`internal/datastore/crdb/options.go`) and the CRDB schema-migration
driver (`internal/datastore/crdb/migrations/driver.go`), shallowly
embedded in Lean 4.

`time.Duration` is the Go int64 nanosecond count; no arithmetic is
performed on durations in the modelled code (they are only stored and
compared), so we model them as `Int`.  `uint16` values are modelled as
`Nat` (again only stored, never computed with).
-/

namespace Crdb

/-- One nanosecond-count duration unit: the Go constant `time.Second`. -/
def second : Int := 1000000000

/-- The Go constant `time.Hour`. -/
def hour : Int := 3600 * second

/-- Mirror of the Go struct `crdbOptions` (options.go): four optional
pool/timeout fields (Go pointers, `nil` = unset), the watch buffer
length, and the two timing windows. -/
@[ext]
structure crdbOptions where
  connMaxIdleTime : Option Int
  connMaxLifetime : Option Int
  minOpenConns : Option Int
  maxOpenConns : Option Int
  watchBufferLength : Nat
  revisionQuantization : Int
  gcWindow : Int
deriving DecidableEq, Repr

/-- `defaultRevisionQuantization = 5 * time.Second` (options.go). -/
def defaultRevisionQuantization : Int := 5 * second

/-- `defaultWatchBufferLength = 128` (options.go). -/
def defaultWatchBufferLength : Nat := 128

/-- The configuration value `generateConfig` starts from (options.go):
`gcWindow: 24h`, `watchBufferLength: 128`, `revisionQuantization: 5s`,
every pointer field `nil`. -/
def initialOptions : crdbOptions :=
  { connMaxIdleTime := none
    connMaxLifetime := none
    minOpenConns := none
    maxOpenConns := none
    watchBufferLength := defaultWatchBufferLength
    revisionQuantization := defaultRevisionQuantization
    gcWindow := 24 * hour }

/-- The option surface of options.go: each constructor is one of the
seven exported `CRDBOption` setters, carrying the argument of the setter. -/
inductive CRDBOption where
  | ConnMaxIdleTime (idle : Int)
  | ConnMaxLifetime (lifetime : Int)
  | MinOpenConns (conns : Int)
  | MaxOpenConns (conns : Int)
  | WatchBufferLength (watchBufferLength : Nat)
  | RevisionQuantization (bucketSize : Int)
  | GCWindow (window : Int)
deriving DecidableEq, Repr

/-- The mutation each setter performs on the shared `crdbOptions`
record: every setter overwrites exactly its own field (options.go,
bodies of the seven closures). -/
def applyOption (po : crdbOptions) : CRDBOption → crdbOptions
  | .ConnMaxIdleTime idle => { po with connMaxIdleTime := some idle }
  | .ConnMaxLifetime lifetime => { po with connMaxLifetime := some lifetime }
  | .MinOpenConns conns => { po with minOpenConns := some conns }
  | .MaxOpenConns conns => { po with maxOpenConns := some conns }
  | .WatchBufferLength w => { po with watchBufferLength := w }
  | .RevisionQuantization bucketSize => { po with revisionQuantization := bucketSize }
  | .GCWindow window => { po with gcWindow := window }

/-- The error `generateConfig` builds with `errQuantizationTooLarge`:
`fmt.Errorf("revision quantization (%s) must be less than GC window
(%s)", computed.revisionQuantization, computed.gcWindow)` — it carries
both operand values. -/
structure ConfigurationError where
  revisionQuantization : Int
  gcWindow : Int
deriving DecidableEq, Repr

/-- `generateConfig` (options.go): start from the defaults, apply each
option in order, then reject the result when
`revisionQuantization >= gcWindow`, returning the computed record in
both branches. -/
def generateConfig (options : List CRDBOption) :
    crdbOptions × Option ConfigurationError :=
  let computed := options.foldl applyOption initialOptions
  if computed.revisionQuantization ≥ computed.gcWindow then
    (computed, some ⟨computed.revisionQuantization, computed.gcWindow⟩)
  else
    (computed, none)

/-! ### Specification-side formulation of the builder (§4.1 of the spec)

The spec describes the result of `Build` field by field: each field
holds the argument of the *last* option in the sequence that sets that
field, and the default when no option touches it.  The following
definitions state that reading directly (last matching element of the
reversed sequence); they are compared against `generateConfig` in the
theorems below. -/

/-- The value the spec assigns to one field: the argument of the last
option in `opts` that `f` recognises as a setter of that field, or the
default `d` when none does. -/
def lastApplied {α : Type} (f : CRDBOption → Option α) (d : α)
    (opts : List CRDBOption) : α :=
  (opts.reverse.findSome? f).getD d

/-- Setter detector for the `connMaxIdleTime` field. -/
def idleArg : CRDBOption → Option (Option Int)
  | .ConnMaxIdleTime idle => some (some idle)
  | _ => none

/-- Setter detector for the `connMaxLifetime` field. -/
def lifetimeArg : CRDBOption → Option (Option Int)
  | .ConnMaxLifetime lifetime => some (some lifetime)
  | _ => none

/-- Setter detector for the `minOpenConns` field. -/
def minConnsArg : CRDBOption → Option (Option Int)
  | .MinOpenConns conns => some (some conns)
  | _ => none

/-- Setter detector for the `maxOpenConns` field. -/
def maxConnsArg : CRDBOption → Option (Option Int)
  | .MaxOpenConns conns => some (some conns)
  | _ => none

/-- Setter detector for the `watchBufferLength` field. -/
def watchArg : CRDBOption → Option Nat
  | .WatchBufferLength w => some w
  | _ => none

/-- Setter detector for the `revisionQuantization` field. -/
def quantArg : CRDBOption → Option Int
  | .RevisionQuantization bucketSize => some bucketSize
  | _ => none

/-- Setter detector for the `gcWindow` field. -/
def gcArg : CRDBOption → Option Int
  | .GCWindow window => some window
  | _ => none

/-- The configuration the spec says `Build` produces: every field is
the last-applied setter argument for that field, defaults intact for
untouched fields (`gcWindow=24h`, `watchBufferLength=128`,
`revisionQuantization=5s`, pool/timeout fields unset). -/
def specConfig (opts : List CRDBOption) : crdbOptions :=
  { connMaxIdleTime := lastApplied idleArg none opts
    connMaxLifetime := lastApplied lifetimeArg none opts
    minOpenConns := lastApplied minConnsArg none opts
    maxOpenConns := lastApplied maxConnsArg none opts
    watchBufferLength := lastApplied watchArg defaultWatchBufferLength opts
    revisionQuantization := lastApplied quantArg defaultRevisionQuantization opts
    gcWindow := lastApplied gcArg (24 * hour) opts }

theorem getD_findSome?_append {α : Type} (f : CRDBOption → Option α)
    (l : List CRDBOption) (o : CRDBOption) (d : α) :
    ((l ++ [o]).findSome? f).getD d = (l.findSome? f).getD ((f o).getD d) := by
  induction l with
  | nil =>
      simp only [List.nil_append, List.findSome?]
      cases f o <;> simp
  | cons a l ih =>
      simp only [List.cons_append, List.findSome?]
      cases f a <;> simp [ih]

theorem foldl_field_lastApplied {α : Type} (f : CRDBOption → Option α)
    (g : crdbOptions → α)
    (hcompat : ∀ c o, g (applyOption c o) = (f o).getD (g c)) :
    ∀ (opts : List CRDBOption) (c : crdbOptions),
      g (opts.foldl applyOption c) = lastApplied f (g c) opts := by
  intro opts
  induction opts with
  | nil => intro c; simp [lastApplied]
  | cons o opts ih =>
      intro c
      rw [List.foldl_cons, ih, lastApplied, lastApplied, List.reverse_cons,
        getD_findSome?_append, hcompat]

/-- The Go loop `for _, option := range options { option(&computed) }`
starting from the defaults computes exactly the per-field
last-write-wins configuration. -/
theorem applyAll_eq_specConfig (opts : List CRDBOption) :
    opts.foldl applyOption initialOptions = specConfig opts := by
  apply crdbOptions.ext
  · exact foldl_field_lastApplied idleArg (fun c => c.connMaxIdleTime)
      (by intro c o; cases o <;> rfl) opts initialOptions
  · exact foldl_field_lastApplied lifetimeArg (fun c => c.connMaxLifetime)
      (by intro c o; cases o <;> rfl) opts initialOptions
  · exact foldl_field_lastApplied minConnsArg (fun c => c.minOpenConns)
      (by intro c o; cases o <;> rfl) opts initialOptions
  · exact foldl_field_lastApplied maxConnsArg (fun c => c.maxOpenConns)
      (by intro c o; cases o <;> rfl) opts initialOptions
  · exact foldl_field_lastApplied watchArg (fun c => c.watchBufferLength)
      (by intro c o; cases o <;> rfl) opts initialOptions
  · exact foldl_field_lastApplied quantArg (fun c => c.revisionQuantization)
      (by intro c o; cases o <;> rfl) opts initialOptions
  · exact foldl_field_lastApplied gcArg (fun c => c.gcWindow)
      (by intro c o; cases o <;> rfl) opts initialOptions

/-- C3: for every option sequence whose final `revisionQuantization`
is greater than or equal to the final `gcWindow`, `generateConfig`
fails with a `ConfigurationError` carrying both operand values
(the computed `revisionQuantization` and `gcWindow`); the check runs
inside `generateConfig`, i.e. at construction time. -/
theorem generateConfig_rejects_large_quantization (opts : List CRDBOption)
    (h : (specConfig opts).gcWindow ≤ (specConfig opts).revisionQuantization) :
    (generateConfig opts).2 =
      some ⟨(specConfig opts).revisionQuantization, (specConfig opts).gcWindow⟩ := by
  have hc := applyAll_eq_specConfig opts
  simp only [generateConfig, hc]
  rw [if_pos h]

/-- Witness for C3, the concrete case from the spec: default quantization 5s
with `GCWindow(1s)` fails, the error carrying 5s and 1s. -/
theorem generateConfig_rejects_large_quantization_witness :
    (generateConfig [CRDBOption.GCWindow second]).2 =
      some ⟨defaultRevisionQuantization, second⟩ :=
  generateConfig_rejects_large_quantization [CRDBOption.GCWindow second] (by decide)

/-- C4: for every option sequence whose final `revisionQuantization`
is strictly below the final `gcWindow`, `generateConfig` succeeds (no
error) and returns the configuration in which each field equals the
last-applied option value for that field and every untouched field
holds its default (`gcWindow=24h`, `watchBufferLength=128`,
`revisionQuantization=5s`, pool/timeout fields unset), as expressed by
`specConfig`. -/
theorem generateConfig_lastWriteWins (opts : List CRDBOption)
    (h : (specConfig opts).revisionQuantization < (specConfig opts).gcWindow) :
    generateConfig opts = (specConfig opts, none) := by
  have hc := applyAll_eq_specConfig opts
  simp only [generateConfig, hc]
  rw [if_neg (not_le.mpr h)]

/-- Witness for C4 at a concrete option sequence exercising
last-write-wins (`RevisionQuantization` given twice) and defaults. -/
theorem generateConfig_lastWriteWins_witness :
    generateConfig [CRDBOption.RevisionQuantization (2 * second),
        CRDBOption.MaxOpenConns 10, CRDBOption.RevisionQuantization (3 * second),
        CRDBOption.GCWindow (2 * hour)] =
      ({ connMaxIdleTime := none
         connMaxLifetime := none
         minOpenConns := none
         maxOpenConns := some 10
         watchBufferLength := 128
         revisionQuantization := 3 * second
         gcWindow := 2 * hour }, none) := by
  have := generateConfig_lastWriteWins [CRDBOption.RevisionQuantization (2 * second),
    CRDBOption.MaxOpenConns 10, CRDBOption.RevisionQuantization (3 * second),
    CRDBOption.GCWindow (2 * hour)] (by decide)
  rw [this]
  decide

/-- C10: when the validation fails (final quantization at least the
final GC window), `generateConfig` still returns the fully computed
configuration — defaults plus every option applied per last-write-wins,
the offending values included — alongside the error; no applied option
is undone on the failing path. -/
theorem generateConfig_failure_keeps_computed (opts : List CRDBOption)
    (h : (specConfig opts).gcWindow ≤ (specConfig opts).revisionQuantization) :
    (generateConfig opts).1 = specConfig opts ∧ ((generateConfig opts).2).isSome := by
  have hc := applyAll_eq_specConfig opts
  constructor
  · simp only [generateConfig, hc]
    split <;> rfl
  · simp only [generateConfig, hc]
    rw [if_pos h]
    rfl

/-- Witness for C10: with `MaxOpenConns(7)` applied and `GCWindow(1s)`
offending, the returned configuration still holds both applied values
and the error is present. -/
theorem generateConfig_failure_keeps_computed_witness :
    (generateConfig [CRDBOption.MaxOpenConns 7, CRDBOption.GCWindow second]).1 =
        specConfig [CRDBOption.MaxOpenConns 7, CRDBOption.GCWindow second] ∧
      ((generateConfig [CRDBOption.MaxOpenConns 7, CRDBOption.GCWindow second]).2).isSome :=
  generateConfig_failure_keeps_computed
    [CRDBOption.MaxOpenConns 7, CRDBOption.GCWindow second] (by decide)

end Crdb

namespace Migrations

/-- Go errors as driver.go builds and inspects them: `base` is an
arbitrary backend/library error identified by its message, `pg` is a
`pgconn.PgError` with its SQLSTATE code, and the four wrapping
constructors are the `fmt.Errorf("...: %w", err)` wrappings and the
row-count error constructed in driver.go (whose message embeds the
offending count). -/
inductive Err where
  | base (msg : String)
  | pg (code : String) (msg : String)
  | unableToInstantiate (cause : Err)
  | unableToLoadAlembicRevision (cause : Err)
  | unableToUpdateVersionRow (cause : Err)
  | unableToComputeRowsAffected (cause : Err)
  | rowsAffectedNotOne (count : Int)
deriving DecidableEq, Repr

/-- `postgresMissingTableErrorCode = "42P01"` (driver.go). -/
def postgresMissingTableErrorCode : String := "42P01"

/-- Model of `errors.As(err, &pgErr)` for `*pgconn.PgError`: walk the
`%w` unwrap chain and return the code/message of the first `PgError`
found, if any. -/
def errorsAsPg : Err → Option (String × String)
  | .pg code msg => some (code, msg)
  | .unableToInstantiate cause => errorsAsPg cause
  | .unableToLoadAlembicRevision cause => errorsAsPg cause
  | .unableToUpdateVersionRow cause => errorsAsPg cause
  | .unableToComputeRowsAffected cause => errorsAsPg cause
  | _ => none

/-- The state of the backing database as the modelled code can observe
it: the `schema_version` table (absent on a fresh database, otherwise a
list of the values in its `version_num` column), plus an opaque counter
standing for every other piece of backend state a migration body may
mutate. -/
structure DBState where
  versionTable : Option (List String)
  appData : Nat
deriving DecidableEq, Repr

/-- A connection to the backend together with the behaviour of the
backend operations the driver invokes on it: whether `BeginTx`, the
version `UPDATE` `Exec`, `Commit` and `Rollback` fail, and with which
(backend-supplied) errors.  `rollbackErr` is carried to show the code
ignores it. -/
structure Backend where
  db : DBState
  beginErr : Option Err
  execErr : Option Err
  commitErr : Option Err
  rollbackErr : Option Err
deriving DecidableEq, Repr

/-- A migration body `migrate.MigrationFunc[pgx.Tx]`: runs against the
transaction working state and returns the mutated state together with
an optional error. -/
abbrev MigrationFunc : Type := DBState → DBState × Option Err

/-- The backend executing `queryWriteVersion`
(`UPDATE schema_version SET version_num=$1 WHERE version_num=$2`) on
the transaction working state: Go-style `(result, err)` pair plus the
resulting state.  On an injected execution error or an absent table the
command fails; otherwise every row equal to `replaced` becomes
`version` and the command tag reports the number of rows affected. -/
def pgxExecWriteVersion (execErr : Option Err) (tx : DBState)
    (version replaced : String) : Int × Option Err × DBState :=
  match execErr with
  | some e => (0, some e, tx)
  | none =>
    match tx.versionTable with
    | none =>
        (0, some (.pg postgresMissingTableErrorCode
          "relation schema_version does not exist"), tx)
    | some rows =>
        let newRows := rows.map (fun r => if r = replaced then version else r)
        ((rows.filter (fun r => r = replaced)).length,
         none,
         { tx with versionTable := some newRows })

/-- `writeVersion` (driver.go): run the conditional `UPDATE`, wrap an
execution error, re-test the same (already nil) `err` before wrapping a
rows-affected-computation error, and reject any affected-row count
other than one.  Returns the transaction working state Go leaves behind
and the returned error. -/
def writeVersion (execErr : Option Err) (tx : DBState)
    (version replaced : String) : DBState × Option Err :=
  let res := pgxExecWriteVersion execErr tx version replaced
  let result := res.1
  let err := res.2.1
  let tx1 := res.2.2
  match err with
  | some e => (tx1, some (.unableToUpdateVersionRow e))
  | none =>
    let updatedCount := result
    match err with
    | some e => (tx1, some (.unableToComputeRowsAffected e))
    | none =>
      if updatedCount ≠ 1 then
        (tx1, some (.rowsAffectedNotOne updatedCount))
      else
        (tx1, none)

/-- `Transact` (driver.go): begin a read-write transaction (failure
returns the backend error with no side effect), register the deferred
unconditional `tx.Rollback` whose own error is discarded, run the body
(an error is returned verbatim and the rollback discards the working
state), run `writeVersion` (an error is returned and the rollback
discards the working state), then commit — a commit error is returned
with nothing retained, and only a successful commit installs the
working state as the new database state. -/
def Transact (b : Backend) (f : MigrationFunc) (version replaced : String) :
    Backend × Option Err :=
  match b.beginErr with
  | some e => (b, some e)
  | none =>
    let tx0 := b.db
    let bodyRes := f tx0
    match bodyRes.2 with
    | some e => (b, some e)
    | none =>
      let writeRes := writeVersion b.execErr bodyRes.1 version replaced
      match writeRes.2 with
      | some e => (b, some e)
      | none =>
        match b.commitErr with
        | some e => (b, some e)
        | none => ({ b with db := writeRes.1 }, none)

/-- The result the backend hands `Version` for
`QueryRow(ctx, "SELECT version_num from schema_version").Scan(&loaded)`:
an absent table surfaces the 42P01 `PgError`, an empty table surfaces
the no-rows error, and otherwise the first row is scanned. -/
def queryLoadVersionScan (db : DBState) : Except Err String :=
  match db.versionTable with
  | none => .error (.pg postgresMissingTableErrorCode
      "relation schema_version does not exist")
  | some [] => .error (.base "no rows in result set")
  | some (v :: _) => .ok v

/-- `Version` (driver.go), as a function of the scan outcome: on a
scan error that `errors.As`-unwraps to a `PgError` with code 42P01
return `("", nil)`; on any other scan error return the error wrapped as
`unable to load alembic revision`; on success return the loaded
string. -/
def Version (scan : Except Err String) : String × Option Err :=
  match scan with
  | .error err =>
      match errorsAsPg err with
      | some pgErr =>
          if pgErr.1 = postgresMissingTableErrorCode then ("", none)
          else ("", some (.unableToLoadAlembicRevision err))
      | none => ("", some (.unableToLoadAlembicRevision err))
  | .ok loaded => (loaded, none)

/-- `Version` invoked on a connected backend: the scan result is read
from the current database state. -/
def runVersion (b : Backend) : String × Option Err :=
  Version (queryLoadVersionScan b.db)

end Migrations

namespace Migrations

/-- The condition `errors.As(err, &pgErr) && pgErr.Code == ...` tests:
the SQLSTATE code of the `PgError` in the unwrap chain, if any. -/
def errorsAsPgCode (e : Err) : Option String :=
  (errorsAsPg e).map (fun p => p.1)

/-- Model of `pgx.ParseConfig` output: the parsed connection
parameters, with the flag driver.go sets by assigning
`connConfig.Logger`. -/
structure ConnConfig where
  url : String
  loggerAttached : Bool
deriving DecidableEq, Repr

/-- A live `*pgx.Conn` handle, identified abstractly. -/
structure PgxConn where
  connId : Nat
deriving DecidableEq, Repr

/-- The Go struct `CRDBDriver`: it owns one connection handle. -/
structure CRDBDriver where
  db : PgxConn
deriving DecidableEq, Repr

/-- The assignment `connConfig.Logger = zerologadapter.NewLogger(...)`
performed between parse and connect in driver.go. -/
def setLogger (c : ConnConfig) : ConnConfig :=
  { c with loggerAttached := true }

/-- `NewCRDBDriver` (driver.go), parameterised by the behaviour of the
external `pgx` library: parse the connection string (a failure is
wrapped via `errUnableToInstantiate`), attach the logger, establish the
one connection (a failure is wrapped the same way), and on success
return the driver owning that connection.  Each library call appears
exactly once: no retry. -/
def NewCRDBDriver (parseConfig : String → Except Err ConnConfig)
    (connectConfig : ConnConfig → Except Err PgxConn)
    (url : String) : Except Err CRDBDriver :=
  match parseConfig url with
  | .error e => .error (.unableToInstantiate e)
  | .ok connConfig =>
    match connectConfig (setLogger connConfig) with
    | .error e => .error (.unableToInstantiate e)
    | .ok db => .ok ⟨db⟩

end Migrations

namespace Migrations

/-- C1: `Transact` is atomic on body failure — whenever the transaction
begins and the migration body returns an error, `Transact` returns that
error verbatim (the rollback error, whatever it is, is never escalated
over it), the backend state is exactly the pre-call state, and a
subsequent `Version` call reads the same stored version with every
mutation of the body absent. -/
theorem Transact_bodyError_atomic (b : Backend) (f : MigrationFunc)
    (version replaced : String) (e : Err)
    (hbegin : b.beginErr = none)
    (hbody : (f b.db).2 = some e) :
    Transact b f version replaced = (b, some e) ∧
      runVersion (Transact b f version replaced).1 = runVersion b := by
  have h1 : Transact b f version replaced = (b, some e) := by
    simp [Transact, hbegin, hbody]
  exact ⟨h1, by rw [h1]⟩

/-- Witness for C1: stored version "002", a body that mutates the
opaque state and the version table before failing, and a backend whose
rollback itself fails — the body error alone comes back and the state,
version included, is untouched. -/
theorem Transact_bodyError_atomic_witness :
    Transact ⟨⟨some ["002"], 0⟩, none, none, none, some (.base "rollback failed")⟩
        (fun d => ({ versionTable := some ["999"], appData := d.appData + 1 },
          some (.base "body failed")))
        "003" "002" =
      (⟨⟨some ["002"], 0⟩, none, none, none, some (.base "rollback failed")⟩,
        some (.base "body failed")) ∧
      runVersion (Transact ⟨⟨some ["002"], 0⟩, none, none, none,
          some (.base "rollback failed")⟩
        (fun d => ({ versionTable := some ["999"], appData := d.appData + 1 },
          some (.base "body failed")))
        "003" "002").1 =
        runVersion ⟨⟨some ["002"], 0⟩, none, none, none,
          some (.base "rollback failed")⟩ :=
  Transact_bodyError_atomic _ _ _ _ _ rfl rfl

/-- C2: whenever the transaction begins, the body succeeds, and the
conditional version `UPDATE` executes but affects a number of rows
other than one (zero because no row equals `replaced`, or several), the
affected-row-count error is returned, the backend state — the stored
version included — is exactly the pre-call state, and no internal retry
happens (the single attempt ends in this error). -/
theorem Transact_versionMismatch (b : Backend) (f : MigrationFunc)
    (version replaced : String) (rows : List String)
    (hbegin : b.beginErr = none)
    (hexec : b.execErr = none)
    (hbody : (f b.db).2 = none)
    (htable : (f b.db).1.versionTable = some rows)
    (hcount : (rows.filter (fun r => r = replaced)).length ≠ 1) :
    Transact b f version replaced =
        (b, some (.rowsAffectedNotOne ((rows.filter (fun r => r = replaced)).length : Int))) ∧
      runVersion (Transact b f version replaced).1 = runVersion b := by
  have hcast : ((rows.filter (fun r => r = replaced)).length : Int) ≠ 1 := by
    exact_mod_cast hcount
  have h1 : Transact b f version replaced =
      (b, some (.rowsAffectedNotOne ((rows.filter (fun r => r = replaced)).length : Int))) := by
    simp [Transact, writeVersion, pgxExecWriteVersion, hbegin, hexec, hbody, htable, hcast]
  exact ⟨h1, by rw [h1]⟩

/-- Witness for C2, the concrete case from the spec: stored version
"002", `replacedVersion="001"`, `newVersion="002a"` — zero rows match,
the call fails with the zero-row mismatch error, and the stored version
remains "002". -/
theorem Transact_versionMismatch_witness :
    Transact ⟨⟨some ["002"], 0⟩, none, none, none, none⟩ (fun d => (d, none))
        "002a" "001" =
      (⟨⟨some ["002"], 0⟩, none, none, none, none⟩,
        some (.rowsAffectedNotOne 0)) ∧
      runVersion (Transact ⟨⟨some ["002"], 0⟩, none, none, none, none⟩
          (fun d => (d, none)) "002a" "001").1 =
        runVersion ⟨⟨some ["002"], 0⟩, none, none, none, none⟩ := by
  have h := Transact_versionMismatch ⟨⟨some ["002"], 0⟩, none, none, none, none⟩
    (fun d => (d, none)) "002a" "001" ["002"] rfl rfl rfl rfl (by decide)
  simpa using h

end Migrations

namespace Migrations

/-- C6: whenever the transaction begins, the body succeeds, and the
version table as left by the body holds exactly the one row
`replaced`, the conditional `UPDATE` affects exactly one row and
`Transact` commits: on a successful commit the database ends with the
body effects installed and the version table holding exactly one row
whose value is `version`; a commit failure is returned as the error
with nothing of the attempt retained. -/
theorem Transact_success_commits (b : Backend) (f : MigrationFunc)
    (version replaced : String)
    (hbegin : b.beginErr = none)
    (hexec : b.execErr = none)
    (hbody : (f b.db).2 = none)
    (htable : (f b.db).1.versionTable = some [replaced]) :
    Transact b f version replaced =
      match b.commitErr with
      | some ce => (b, some ce)
      | none =>
          ({ b with db := { (f b.db).1 with versionTable := some [version] } },
            none) := by
  cases hc : b.commitErr with
  | some ce =>
      simp [Transact, writeVersion, pgxExecWriteVersion, hbegin, hexec, hbody,
        htable, hc]
  | none =>
      simp [Transact, writeVersion, pgxExecWriteVersion, hbegin, hexec, hbody,
        htable, hc]

/-- Witness for C6, the concrete case from the spec: stored version
"002", matching `replacedVersion="002"`, `newVersion="003"`, a body
that mutates the opaque state — the call succeeds and leaves exactly
one row holding "003" with the body effect committed. -/
theorem Transact_success_commits_witness :
    Transact ⟨⟨some ["002"], 5⟩, none, none, none, none⟩
        (fun d => ({ versionTable := d.versionTable, appData := 7 }, none))
        "003" "002" =
      (⟨⟨some ["003"], 7⟩, none, none, none, none⟩, none) :=
  Transact_success_commits ⟨⟨some ["002"], 5⟩, none, none, none, none⟩
    (fun d => ({ versionTable := d.versionTable, appData := 7 }, none))
    "003" "002" rfl rfl rfl rfl

/-- C5: the three outcomes of `Version` — a scan failure whose unwrap
chain carries the 42P01 table-not-found code yields `("", nil)`; any
other scan failure yields the empty string and the error wrapped as
the version-load failure, carrying the underlying cause; a successful
scan yields the stored version with nil error.  In particular a fresh
backend whose version table is absent yields `("", nil)`. -/
theorem Version_outcomes :
    (∀ v, Version (.ok v) = (v, none)) ∧
    (∀ err, errorsAsPgCode err = some postgresMissingTableErrorCode →
      Version (.error err) = ("", none)) ∧
    (∀ err, errorsAsPgCode err ≠ some postgresMissingTableErrorCode →
      Version (.error err) = ("", some (.unableToLoadAlembicRevision err))) ∧
    (∀ b : Backend, b.db.versionTable = none → runVersion b = ("", none)) := by
  refine ⟨fun v => rfl, ?_, ?_, ?_⟩
  · intro err h
    rcases hp : errorsAsPg err with _ | ⟨code, msg⟩
    · simp [errorsAsPgCode, hp] at h
    · have hcode : code = postgresMissingTableErrorCode := by
        simpa [errorsAsPgCode, hp] using h
      simp [Version, hp, hcode]
  · intro err h
    rcases hp : errorsAsPg err with _ | ⟨code, msg⟩
    · simp [Version, hp]
    · have hcode : code ≠ postgresMissingTableErrorCode := by
        intro hc
        exact h (by simp [errorsAsPgCode, hp, hc])
      simp [Version, hp, hcode]
  · intro b h
    simp [runVersion, queryLoadVersionScan, h, Version, errorsAsPg]

/-- Witness for C5: the table-absent scan error gives `("", nil)`, a
plain connection error gives the wrapped load failure, a successful
scan gives the version, and a backend with no version table gives
`("", nil)`. -/
theorem Version_outcomes_witness :
    Version (.ok "002") = ("002", none) ∧
    Version (.error (.pg "42P01" "relation does not exist")) = ("", none) ∧
    Version (.error (.base "connection reset")) =
      ("", some (.unableToLoadAlembicRevision (.base "connection reset"))) ∧
    runVersion ⟨⟨none, 0⟩, none, none, none, none⟩ = ("", none) := by
  obtain ⟨h1, h2, h3, h4⟩ := Version_outcomes
  exact ⟨h1 "002", h2 _ (by decide), h3 _ (by decide), h4 _ rfl⟩

/-- C7: `NewCRDBDriver` is single-attempt with wrapped failures — a
parse failure comes back wrapped in the instantiation error no matter
what the connect behaviour is (no connection attempt, no retry); a
connect failure after a successful parse comes back wrapped the same
way; and on success the returned driver owns exactly the one
connection the single connect call produced. -/
theorem NewCRDBDriver_singleAttempt
    (parseConfig : String → Except Err ConnConfig)
    (connectConfig : ConnConfig → Except Err PgxConn) (url : String) :
    (∀ e, parseConfig url = .error e →
      NewCRDBDriver parseConfig connectConfig url =
        .error (.unableToInstantiate e)) ∧
    (∀ cfg e, parseConfig url = .ok cfg →
      connectConfig (setLogger cfg) = .error e →
      NewCRDBDriver parseConfig connectConfig url =
        .error (.unableToInstantiate e)) ∧
    (∀ cfg conn, parseConfig url = .ok cfg →
      connectConfig (setLogger cfg) = .ok conn →
      NewCRDBDriver parseConfig connectConfig url = .ok ⟨conn⟩) := by
  refine ⟨?_, ?_, ?_⟩
  · intro e he
    simp [NewCRDBDriver, he]
  · intro cfg e hp hcn
    simp [NewCRDBDriver, hp, hcn]
  · intro cfg conn hp hcn
    simp [NewCRDBDriver, hp, hcn]

/-- Witness for C7: a connection string whose parse fails yields the
wrapped instantiation error even though the supplied connect behaviour
would succeed — the connect result is never consulted. -/
theorem NewCRDBDriver_singleAttempt_witness :
    NewCRDBDriver (fun _ => .error (.base "cannot parse"))
        (fun _ => .ok ⟨1⟩) "bad-url" =
      .error (.unableToInstantiate (.base "cannot parse")) :=
  (NewCRDBDriver_singleAttempt (fun _ => .error (.base "cannot parse"))
    (fun _ => .ok ⟨1⟩) "bad-url").1 (.base "cannot parse") rfl

/-- C9: the second error test in `writeVersion` re-examines the same
variable already known nil after a successful `Exec`, so the
rows-affected-computation branch is dead: on every input the returned
error is nil, the wrapped `Exec` failure, or the affected-row-count
error — never the rows-affected-computation wrapping. -/
theorem writeVersion_outcomes (execErr : Option Err) (tx : DBState)
    (version replaced : String) :
    (writeVersion execErr tx version replaced).2 = none ∨
    (∃ c, (writeVersion execErr tx version replaced).2 =
      some (.unableToUpdateVersionRow c)) ∨
    (∃ n, (writeVersion execErr tx version replaced).2 =
      some (.rowsAffectedNotOne n)) := by
  rcases hr : pgxExecWriteVersion execErr tx version replaced with ⟨result, err, tx1⟩
  cases err with
  | some e =>
      right; left
      exact ⟨e, by simp [writeVersion, hr]⟩
  | none =>
      by_cases hn : result = 1
      · left
        simp [writeVersion, hr, hn]
      · right; right
        exact ⟨result, by simp [writeVersion, hr, hn]⟩

end Migrations

namespace MysqlMigrations

/-- Modelled from the spec: whether a version identifier carries the
disallowed bare-numeric lead (§6, registration surface) — its first
character is a numeric digit, as in the bare literal "888". -/
def startsWithDigit (version : String) : Bool :=
  match version.data with
  | [] => false
  | ch :: _ => ch.isDigit

/-- Modelled from the spec: `registerMigration` of the MySQL
migrations package is not under src/ — only its boundary test is.
Per §6, registration validates the version identifier against the
supported identifier grammar, independently of the Runner, and rejects
at registration time an identifier with a disallowed numeric lead,
returning an error; a conforming identifier registers with no error. -/
def registerMigration (version replaces : String)
    (body : Migrations.MigrationFunc) : Option Migrations.Err :=
  if startsWithDigit version then
    some (.base ("migration version is not supported: " ++ version))
  else
    none

/-- C8: registering a migration whose version identifier has an
unsupported bare-numeric lead fails at registration time with an
error, never silently accepted, for every replaces string and body —
enforced by the registration surface itself, independently of
`Transact`. -/
theorem registerMigration_rejectsNumericVersion (version replaces : String)
    (body : Migrations.MigrationFunc) (ch : Char) (rest : List Char)
    (hv : version.data = ch :: rest) (hd : ch.isDigit = true) :
    (registerMigration version replaces body).isSome = true := by
  simp [registerMigration, startsWithDigit, hv, hd]

/-- Witness for C8, the concrete case from the CI boundary test:
registering version "888" (bare numeric literal) with an empty
replaces string and a trivial body errors. -/
theorem registerMigration_rejectsNumericVersion_witness :
    (registerMigration "888" "" (fun d => (d, none))).isSome = true :=
  registerMigration_rejectsNumericVersion "888" "" (fun d => (d, none))
    (Char.ofNat 56) [Char.ofNat 56, Char.ofNat 56] rfl (by decide)

end MysqlMigrations

namespace Migrations

/-- Witness for C9 at a concrete input: with no injected execution
error and a single non-matching row, the returned error is in the
allowed set (here the affected-row-count error for zero rows). -/
theorem writeVersion_outcomes_witness :
    (writeVersion none ⟨some ["002"], 0⟩ "002a" "001").2 = none ∨
    (∃ c, (writeVersion none ⟨some ["002"], 0⟩ "002a" "001").2 =
      some (.unableToUpdateVersionRow c)) ∨
    (∃ n, (writeVersion none ⟨some ["002"], 0⟩ "002a" "001").2 =
      some (.rowsAffectedNotOne n)) :=
  writeVersion_outcomes none ⟨some ["002"], 0⟩ "002a" "001"

end Migrations
